import Mathlib

/-! Shallow embedding of the Bluesky follow/unfollow engine (`src/main.py`).

Modelling conventions:
* An account DID or handle is a `String`.
* Python's in-memory sets `my_followers` / `accounts_i_follow` (sets of DID)
  are `Finset String`.
* A CSV ledger is a `List LedgerRow`; a row's optional `Add Date` column is
  `Option Int`, a timestamp in abstract ticks (the code stores microsecond
  precision timestamps and compares them with `datetime` ordering, which an
  integer tick count models faithfully).  `retention` is the duration
  `timedelta(days=keep_for_x_days)` expressed in the same ticks.
* A missing CSV file is `Option.none`; the `FileNotFoundError` handler of
  `read_accounts_from_csv` / the broad handler of `read_handles_from_csv`
  then yields the empty list.
* Remote calls (`client.follow`, `client.unfollow`) are modelled by a
  `remoteOk : Bool` oracle: when `false` the call raises, the surrounding
  `except` block catches, and the function returns `False` having changed
  no local state.
-/

namespace Bluesky

/-- An account record as produced by the remote API / stored without an
`Add Date` column: `Handle, Display Name, DID, Follows Me`. -/
structure Account where
  handle : String
  displayName : String
  did : String
  followsMe : Bool
deriving DecidableEq, Repr

/-- A CSV ledger row: `Handle, Display Name, DID, Follows Me[, Add Date]`.
`addDate = none` models a row whose `Add Date` field is absent (`None`). -/
structure LedgerRow where
  handle : String
  displayName : String
  did : String
  followsMe : Bool
  addDate : Option Int
deriving DecidableEq, Repr

/-- The `ModifyFollowers` enum from the source. -/
inductive ModifyFollowers where
  | follow
  | unfollow
deriving DecidableEq, Repr

/-- Embedding of `read_accounts_from_csv`: a missing file (`none`) is caught
(`except FileNotFoundError: pass`) and the accumulated empty list is
returned; an existing file yields its rows. -/
def read_accounts_from_csv (file : Option (List LedgerRow)) : List LedgerRow :=
  match file with
  | none => []
  | some rows => rows

/-- Embedding of `read_handles_from_csv`: the `Handle` column of every row; any failure to
open the file (caught by the broad `except`) leaves the initial empty list. -/
def read_handles_from_csv (file : Option (List LedgerRow)) : List String :=
  match file with
  | none => []
  | some rows => rows.map (fun r => r.handle)

/-- The `Handle` column of an in-memory ledger (what
`read_handles_from_csv` returns for a present file). -/
def read_handles (rows : List LedgerRow) : List String :=
  rows.map (fun r => r.handle)

/-- Embedding of `add_new_accounts_to_csv`: append exactly the incoming rows whose
`Handle` is not already present in the ledger. -/
def add_new_accounts_to_csv (rows newRows : List LedgerRow) : List LedgerRow :=
  rows ++ newRows.filter (fun r => !(decide (r.handle ∈ read_handles rows)))

/-- Embedding of `remove_accounts_from_csv`: filter out rows whose `Handle` is listed;
the rewrite happens only under `if remaining_data:` — when every row would
be removed the file is left untouched. -/
def remove_accounts_from_csv (rows : List LedgerRow) (toRemove : List String) :
    List LedgerRow :=
  let remaining := rows.filter (fun r => !(decide (r.handle ∈ toRemove)))
  if remaining.isEmpty then rows else remaining

/-- The retention test of `main` Step 1 on one `added_by_API` row:
`account['Add Date'] is not None and
 strptime(account['Add Date']) < now − timedelta(days=keep_for_x_days)`. -/
def retentionEligible (now retention : Int) (r : LedgerRow) : Bool :=
  match r.addDate with
  | none => false
  | some t => decide (t < now - retention)

/-- The `accounts_to_unfollow` list computed in `main` (lines 423–437):
aged `added_by_API` rows with DID currently followed and handle not on the
do-not-remove list, extended with the `manual_remove` rows under the same
DID/handle restrictions. -/
def unfollowList (now retention : Int) (addedLedger manualRemove : List LedgerRow)
    (accountsIFollow : Finset String) (doNotRemove : List String) : List LedgerRow :=
  (addedLedger.filter fun r =>
      retentionEligible now retention r
        && decide (r.did ∈ accountsIFollow)
        && !(decide (r.handle ∈ doNotRemove)))
    ++ (manualRemove.filter fun r =>
      decide (r.did ∈ accountsIFollow)
        && !(decide (r.handle ∈ doNotRemove)))

/-- The loop body of `construct_follow_list`: walk the prospects, append an
account when its DID is not excluded (incrementing the counter `i`), and
after each iteration break as soon as `i >= max_follows`. -/
def followLoop (excluded : String → Bool) (maxFollows : Nat) :
    List Account → Nat → List Account
  | [], _ => []
  | a :: rest, i =>
    if excluded a.did then
      if maxFollows ≤ i then [] else followLoop excluded maxFollows rest i
    else
      a :: (if maxFollows ≤ i + 1 then [] else followLoop excluded maxFollows rest (i + 1))

/-- Embedding of `construct_follow_list` from `main`: exclude prospects whose DID is
already followed, already a follower, or already in the `added_by_API`
ledger, up to `max_follows`. -/
def construct_follow_list (maxFollows : Nat) (accountsIFollow myFollowers : Finset String)
    (added : List LedgerRow) (prospects : List Account) : List Account :=
  let alreadyAdded : Finset String := (added.map (fun r => r.did)).toFinset
  let doNotFollow : Finset String := (accountsIFollow ∪ myFollowers) ∪ alreadyAdded
  followLoop (fun d => decide (d ∈ doNotFollow)) maxFollows prospects 0

/-- The local state touched by `follow_or_unfollow`: the in-memory
`accounts_i_follow` set and the three ledgers it writes. -/
structure EngineState where
  accountsIFollow : Finset String
  addedByAPI : List LedgerRow
  iFollowCsv : List LedgerRow
  removedUsers : List LedgerRow
deriving DecidableEq

/-- Embedding of `follow_or_unfollow` (source lines 253–281).  `remoteOk = false` models
the remote `client.follow` / `client.unfollow` call raising: the `except`
catches it before any local mutation and returns `False`.  In the unfollow
branch, `accounts_i_follow.remove` raises `KeyError` when the DID is not in
the set — also caught, also before any local mutation — so that case too is
`(false, s)`.  On the success paths the set mutation happens first, then the
CSV updates, which never raise. -/
def follow_or_unfollow (remoteOk : Bool) (a : Account) (now : Int)
    (modification : ModifyFollowers) (s : EngineState) : Bool × EngineState :=
  if remoteOk then
    match modification with
    | ModifyFollowers.follow =>
      let s1 := { s with accountsIFollow := insert a.did s.accountsIFollow }
      let s2 := { s1 with addedByAPI :=
        add_new_accounts_to_csv s1.addedByAPI [⟨a.handle, a.displayName, a.did, true, some now⟩] }
      let s3 := { s2 with iFollowCsv :=
        add_new_accounts_to_csv s2.iFollowCsv [⟨a.handle, a.displayName, a.did, true, none⟩] }
      (true, s3)
    | ModifyFollowers.unfollow =>
      if a.did ∈ s.accountsIFollow then
        let s1 := { s with accountsIFollow := s.accountsIFollow.erase a.did }
        let s2 := { s1 with iFollowCsv :=
          remove_accounts_from_csv s1.iFollowCsv [a.handle] }
        let s3 := { s2 with removedUsers :=
          add_new_accounts_to_csv s2.removedUsers [⟨a.handle, a.displayName, a.did, true, some now⟩] }
        (true, s3)
      else (false, s)
  else (false, s)

/-- One pass through the `rate_limiter(interval)` wrapper under an idealized
clock (`time.sleep` is exact and the instants around it coincide).  Input:
the stored `last_called[0]` and the attempt time `now = time.time()`; output:
the instant the wrapped call actually starts, and the new `last_called[0]`
(which the code sets to `time.time()` right after the optional sleep, i.e.
to that same instant). -/
def rate_limited_call (interval lastCalled now : ℚ) : ℚ × ℚ :=
  let elapsed := now - lastCalled
  let start := if elapsed < interval then now + (interval - elapsed) else now
  (start, start)

/-- Per-handle outcome of `fetch_relationships`: the timeout handler retries
forever, so a terminating fetch either returns the accounts or raises a
non-timeout failure (`Except.error`). -/
def FetchOutcome : Type := Except Unit (List Account)

/-- One output dict of `get_relationships_of_handle_list`:
`Follows Me` is recomputed as membership of the DID in `my_followers`. -/
def prospect_row (myFollowers : Finset String) (a : Account) : Account :=
  ⟨a.handle, a.displayName, a.did, decide (a.did ∈ myFollowers)⟩

/-- The `try` body of `get_relationships_of_handle_list`: fetch each handle
in order, accumulating rows; the first non-timeout failure aborts the body
(the `raise e` in `fetch_relationships` propagates out of the loop). -/
def gatherProspects (fetcher : String → Except Unit (List Account))
    (myFollowers : Finset String) : List String → Except Unit (List Account)
  | [] => Except.ok []
  | h :: rest =>
    match fetcher h with
    | Except.error e => Except.error e
    | Except.ok accts =>
      match gatherProspects fetcher myFollowers rest with
      | Except.error e => Except.error e
      | Except.ok tail => Except.ok (accts.map (prospect_row myFollowers) ++ tail)

/-- Result of a Python call in this embedding: a normal return value, or the
`UnboundLocalError` raised when a `return` statement reads a name that was
never assigned. -/
inductive PyOutcome (α : Type) where
  | ok (val : α)
  | unboundLocalError
deriving DecidableEq

/-- Embedding of `get_relationships_of_handle_list` (lines 108–133): the broad `except`
catches any fetch failure and only prints it; control then reaches
`return return_dict`, but `return_dict` is assigned only at the end of the
`try` body, so on the failure path the return statement itself raises
`UnboundLocalError`. -/
def get_relationships_of_handle_list (fetcher : String → Except Unit (List Account))
    (myFollowers : Finset String) (handleList : List String) :
    PyOutcome (List Account) :=
  match gatherProspects fetcher myFollowers handleList with
  | Except.ok d => PyOutcome.ok d
  | Except.error _ => PyOutcome.unboundLocalError

/-! Helper lemmas shared by several claim theorems. -/

theorem retentionEligible_iff (now retention : Int) (r : LedgerRow) :
    retentionEligible now retention r = true ↔
      ∃ t, r.addDate = some t ∧ t < now - retention := by
  unfold retentionEligible
  cases h : r.addDate with
  | none => simp
  | some t => simp

theorem mem_unfollowList_iff (now retention : Int) (ledger manual : List LedgerRow)
    (follows : Finset String) (dnr : List String) (e : LedgerRow) :
    e ∈ unfollowList now retention ledger manual follows dnr ↔
      (e ∈ ledger ∧ retentionEligible now retention e = true ∧
        e.did ∈ follows ∧ e.handle ∉ dnr) ∨
      (e ∈ manual ∧ e.did ∈ follows ∧ e.handle ∉ dnr) := by
  simp [unfollowList, List.mem_filter, List.mem_append, and_assoc]

theorem mem_unfollowList_did (now retention : Int) (ledger manual : List LedgerRow)
    (follows : Finset String) (dnr : List String) (e : LedgerRow)
    (he : e ∈ unfollowList now retention ledger manual follows dnr) :
    e.did ∈ follows := by
  rcases (mem_unfollowList_iff now retention ledger manual follows dnr e).mp he with
    ⟨-, -, h, -⟩ | ⟨-, h, -⟩ <;> exact h

/-! Concrete rows used by claim C1. -/

/-- A ledger row sitting exactly on the retention boundary:
with `now = 10` and `retention = 1`, `now - addedAt = 1 = retention`. -/
def rowC1a : LedgerRow := ⟨"bob", "", "did5", true, some 9⟩

/-- A ledger row added at `now` itself (not aged at all). -/
def rowC1b : LedgerRow := ⟨"eve", "", "did6", true, some 10⟩

def followsC1 : Finset String := {"did5", "did6"}

/-- C1, counterexample.  The claim says a ledger entry is unfollowed iff
`now − AddedAt ≥ retentionDays` (and DID followed, handle not excluded).
First conjunct: at the exact boundary `now − AddedAt = retentionDays` the
code's strict `<` comparison leaves the entry out of the unfollow list, so
the claimed equivalence fails.  Second conjunct: an entry that is not aged
at all but appears in the manual-remove list is put into the unfollow list,
so the claimed equivalence fails in the other direction as well. -/
theorem C1_retention_counterexample :
    (¬ (rowC1a ∈ unfollowList 10 1 [rowC1a] [] followsC1 [] ↔
        ((∃ t, rowC1a.addDate = some t ∧ (10 : Int) - t ≥ 1) ∧
          rowC1a.did ∈ followsC1 ∧ rowC1a.handle ∉ ([] : List String)))) ∧
    (¬ (rowC1b ∈ unfollowList 10 1 [rowC1b] [rowC1b] followsC1 [] ↔
        ((∃ t, rowC1b.addDate = some t ∧ (10 : Int) - t ≥ 1) ∧
          rowC1b.did ∈ followsC1 ∧ rowC1b.handle ∉ ([] : List String)))) := by
  constructor
  · intro h
    have hmem := h.mpr ⟨⟨9, rfl, by norm_num⟩, by decide, by decide⟩
    exact absurd hmem (by decide)
  · intro h
    have hrhs := h.mp (by decide)
    obtain ⟨⟨t, ht, hge⟩, -, -⟩ := hrhs
    have ht2 : t = 10 := by
      simpa [rowC1b] using ht.symm
    subst ht2
    norm_num at hge

/-- C1, amended.  For every entry `e` of the `added_by_API` ledger, `e` is
in the computed unfollow list iff (`e` has an `Add Date` with
`AddedAt < now − retention`, i.e. `now − AddedAt` STRICTLY greater than the
retention duration, or `e` also occurs in the manual-remove list) and
`e.DID` is currently followed and `e.Handle` is not on the do-not-remove
list. -/
theorem C1_retention_amended (now retention : Int) (ledger manual : List LedgerRow)
    (follows : Finset String) (dnr : List String) (e : LedgerRow)
    (he : e ∈ ledger) :
    e ∈ unfollowList now retention ledger manual follows dnr ↔
      (((∃ t, e.addDate = some t ∧ t < now - retention) ∨ e ∈ manual) ∧
        e.did ∈ follows ∧ e.handle ∉ dnr) := by
  rw [mem_unfollowList_iff, retentionEligible_iff]
  constructor
  · rintro (⟨-, h2, h3, h4⟩ | ⟨h1, h3, h4⟩)
    · exact ⟨Or.inl h2, h3, h4⟩
    · exact ⟨Or.inr h1, h3, h4⟩
  · rintro ⟨h1 | h1, h3, h4⟩
    · exact Or.inl ⟨he, h1, h3, h4⟩
    · exact Or.inr ⟨h1, h3, h4⟩

/-- An aged ledger row used to instantiate the amended C1 theorem. -/
def rowC1w : LedgerRow := ⟨"carol", "", "did7", true, some 3⟩

def followsC1w : Finset String := {"did7"}

/-- Witness for the amended C1 theorem at a concrete aged entry. -/
theorem C1_retention_amended_witness :
    rowC1w ∈ [rowC1w] ∧
    (rowC1w ∈ unfollowList 10 1 [rowC1w] [] followsC1w [] ↔
      (((∃ t, rowC1w.addDate = some t ∧ t < (10 : Int) - 1) ∨
          rowC1w ∈ ([] : List LedgerRow)) ∧
        rowC1w.did ∈ followsC1w ∧ rowC1w.handle ∉ ([] : List String))) :=
  ⟨by decide, C1_retention_amended 10 1 [rowC1w] [] followsC1w [] rowC1w (by decide)⟩

/-! Length bounds for the follow-list loop. -/

theorem followLoop_length_le (excluded : String → Bool) (maxFollows : Nat) :
    ∀ (ps : List Account) (i : Nat), i < maxFollows →
      (followLoop excluded maxFollows ps i).length ≤ maxFollows - i := by
  intro ps
  induction ps with
  | nil => intro i h; simp [followLoop]
  | cons a rest ih =>
    intro i h
    cases hex : excluded a.did with
    | true =>
      rw [followLoop, if_pos hex, if_neg (by omega)]
      exact ih i h
    | false =>
      rw [followLoop, if_neg (by simp [hex])]
      by_cases h2 : maxFollows ≤ i + 1
      · rw [if_pos h2]
        simp only [List.length_cons, List.length_nil]
        omega
      · rw [if_neg h2]
        have h3 := ih (i + 1) (by omega)
        simp only [List.length_cons]
        omega

theorem followLoop_zero_length_le_one (excluded : String → Bool) :
    ∀ (ps : List Account) (i : Nat), (followLoop excluded 0 ps i).length ≤ 1 := by
  intro ps i
  cases ps with
  | nil => simp [followLoop]
  | cons a rest =>
    cases hex : excluded a.did with
    | true =>
      rw [followLoop, if_pos hex, if_pos (Nat.zero_le i)]
      simp
    | false =>
      rw [followLoop, if_neg (by simp [hex]), if_pos (Nat.zero_le (i + 1))]
      simp

/-- A prospect not related in any way, used to break the C2 quota claim. -/
def prospectC2 : Account := ⟨"pat", "", "didp", false⟩

/-- C2, counterexample.  The claim says that with quota `q = 0` the
constructed follow list is empty.  But the loop's break test `i >= max_follows`
runs only after the current prospect has already been appended, so with
quota `0` and a single eligible prospect the output has length `1`. -/
theorem C2_quota_counterexample :
    ¬ ((construct_follow_list 0 ∅ ∅ [] [prospectC2]).length ≤ 0) := by decide

/-- C2, amended.  The constructed follow list has at most `max q 1`
accounts: at most `q` for every quota `q ≥ 1`, while with `q = 0` the first
surviving prospect is still appended before the break test fires, so the
output can contain one account. -/
theorem C2_quota_amended (maxFollows : Nat) (accountsIFollow myFollowers : Finset String)
    (added : List LedgerRow) (prospects : List Account) :
    (construct_follow_list maxFollows accountsIFollow myFollowers added prospects).length ≤
      max maxFollows 1 := by
  unfold construct_follow_list
  cases maxFollows with
  | zero =>
    simpa using followLoop_zero_length_le_one _ prospects 0
  | succ n =>
    have h := followLoop_length_le
      (fun d => decide (d ∈ (accountsIFollow ∪ myFollowers) ∪
        (added.map (fun r => r.did)).toFinset)) (n + 1) prospects 0 (Nat.succ_pos n)
    simp only [Nat.sub_zero] at h
    calc (followLoop _ (n + 1) prospects 0).length ≤ n + 1 := h
      _ ≤ max (n + 1) 1 := Nat.le_max_left _ _

/-- After `add_new_accounts_to_csv` with a single row, that row's handle is
present in the ledger: either it was already there (the row is skipped) or
the row is appended. -/
theorem handle_mem_add_new (rows : List LedgerRow) (r : LedgerRow) :
    r.handle ∈ read_handles (add_new_accounts_to_csv rows [r]) := by
  unfold add_new_accounts_to_csv read_handles
  rw [List.map_append]
  by_cases h : r.handle ∈ read_handles rows
  · exact List.mem_append_left _ (by simpa [read_handles] using h)
  · apply List.mem_append_right
    simp [List.filter_cons, h]
    refine ⟨r, ⟨?_, rfl⟩, rfl⟩
    intro x hx hxr
    exact h (by simpa [read_handles] using ⟨x, hx, hxr⟩)

/-- C3.  Whenever `follow_or_unfollow` returns `True` for the FOLLOW
modification, the account's DID is in the in-memory `accounts_i_follow` set
and its handle is in the `added_by_API` ledger; whenever it returns `True`
for the UNFOLLOW modification, the DID is no longer in `accounts_i_follow`
and the handle is in the `removed_users` ledger. -/
theorem C3_mutation_consistency (remoteOk : Bool) (a : Account) (now : Int)
    (s : EngineState) :
    ((follow_or_unfollow remoteOk a now ModifyFollowers.follow s).1 = true →
      a.did ∈ (follow_or_unfollow remoteOk a now ModifyFollowers.follow s).2.accountsIFollow ∧
      a.handle ∈ read_handles
        (follow_or_unfollow remoteOk a now ModifyFollowers.follow s).2.addedByAPI) ∧
    ((follow_or_unfollow remoteOk a now ModifyFollowers.unfollow s).1 = true →
      a.did ∉ (follow_or_unfollow remoteOk a now ModifyFollowers.unfollow s).2.accountsIFollow ∧
      a.handle ∈ read_handles
        (follow_or_unfollow remoteOk a now ModifyFollowers.unfollow s).2.removedUsers) := by
  cases remoteOk with
  | false =>
    constructor <;> (intro h; simp [follow_or_unfollow] at h)
  | true =>
    constructor
    · intro _
      constructor
      · simp [follow_or_unfollow]
      · simp only [follow_or_unfollow, if_pos rfl]
        exact handle_mem_add_new _ _
    · intro h
      by_cases hm : a.did ∈ s.accountsIFollow
      · constructor
        · simp [follow_or_unfollow, hm]
        · simp only [follow_or_unfollow, if_pos rfl, if_pos hm]
          exact handle_mem_add_new _ _
      · exfalso
        simp [follow_or_unfollow, hm] at h

/-- A concrete account for the C3 witness. -/
def acctC3 : Account := ⟨"alice", "A", "didC3", false⟩

/-- Start state for the C3 follow witness: nothing followed, empty ledgers. -/
def stateC3f : EngineState := ⟨∅, [], [], []⟩

/-- Start state for the C3 unfollow witness: the account is followed. -/
def stateC3u : EngineState := ⟨{"didC3"}, [], [⟨"alice", "A", "didC3", true, none⟩], []⟩

/-- Witness for C3 at concrete states on both branches. -/
theorem C3_mutation_consistency_witness :
    (acctC3.did ∈ (follow_or_unfollow true acctC3 7 ModifyFollowers.follow stateC3f).2.accountsIFollow ∧
      acctC3.handle ∈ read_handles
        (follow_or_unfollow true acctC3 7 ModifyFollowers.follow stateC3f).2.addedByAPI) ∧
    (acctC3.did ∉ (follow_or_unfollow true acctC3 7 ModifyFollowers.unfollow stateC3u).2.accountsIFollow ∧
      acctC3.handle ∈ read_handles
        (follow_or_unfollow true acctC3 7 ModifyFollowers.unfollow stateC3u).2.removedUsers) :=
  ⟨(C3_mutation_consistency true acctC3 7 stateC3f).1 (by decide),
   (C3_mutation_consistency true acctC3 7 stateC3u).2 (by decide)⟩

/-- Every account emitted by the follow-list loop passed the exclusion
test. -/
theorem followLoop_mem_not_excluded (excluded : String → Bool) (maxFollows : Nat) :
    ∀ (ps : List Account) (i : Nat) (a : Account),
      a ∈ followLoop excluded maxFollows ps i → excluded a.did = false := by
  intro ps
  induction ps with
  | nil => intro i a h; simp [followLoop] at h
  | cons b rest ih =>
    intro i a h
    cases hex : excluded b.did with
    | true =>
      rw [followLoop, if_pos hex] at h
      by_cases h2 : maxFollows ≤ i
      · rw [if_pos h2] at h; simp at h
      · rw [if_neg h2] at h; exact ih i a h
    | false =>
      rw [followLoop, if_neg (by simp [hex])] at h
      rcases List.mem_cons.mp h with rfl | h3
      · exact hex
      · by_cases h2 : maxFollows ≤ i + 1
        · rw [if_pos h2] at h3; simp at h3
        · rw [if_neg h2] at h3; exact ih (i + 1) a h3

/-- Every member of the constructed follow list has a DID outside
`accounts_i_follow ∪ my_followers ∪ added_by_API`. -/
theorem mem_construct_follow_list_did (maxFollows : Nat)
    (accountsIFollow myFollowers : Finset String) (added : List LedgerRow)
    (prospects : List Account) (a : Account)
    (h : a ∈ construct_follow_list maxFollows accountsIFollow myFollowers added prospects) :
    a.did ∉ (accountsIFollow ∪ myFollowers) ∪ (added.map (fun r => r.did)).toFinset := by
  unfold construct_follow_list at h
  have h2 := followLoop_mem_not_excluded _ _ _ _ _ h
  simpa using h2

/-- C4.  First conjunct: every account placed on the unfollow list by the
reconciliation step has a DID currently in `accounts_i_follow`.  Second
conjunct: an UNFOLLOW attempt on a DID not in `accounts_i_follow` returns
`False` and leaves the whole engine state unchanged (the `KeyError` from
`set.remove` is caught before any local mutation), so it is a no-op rather
than a propagated error. -/
theorem C4_removal_safety (now retention : Int) (ledger manual : List LedgerRow)
    (follows : Finset String) (dnr : List String) :
    (∀ e ∈ unfollowList now retention ledger manual follows dnr, e.did ∈ follows) ∧
    (∀ (remoteOk : Bool) (a : Account) (t : Int) (s : EngineState),
      a.did ∉ s.accountsIFollow →
      follow_or_unfollow remoteOk a t ModifyFollowers.unfollow s = (false, s)) := by
  constructor
  · intro e he
    exact mem_unfollowList_did now retention ledger manual follows dnr e he
  · intro remoteOk a t s h
    cases remoteOk with
    | false => simp [follow_or_unfollow]
    | true => simp [follow_or_unfollow, h]

/-- A followed ledger row for the C4 witness. -/
def rowC4 : LedgerRow := ⟨"dan", "", "didC4r", true, some 0⟩

/-- An account nobody follows, for the C4 no-op witness. -/
def acctC4 : Account := ⟨"dave", "", "didC4", false⟩

def stateC4 : EngineState := ⟨∅, [], [], []⟩

def followsC4 : Finset String := {"didC4r"}

/-- Witness for C4 at concrete inputs: a listed entry's DID is followed,
and unfollowing a non-followed DID is a no-op returning `false`. -/
theorem C4_removal_safety_witness :
    rowC4 ∈ unfollowList 10 1 [rowC4] [] followsC4 [] ∧
    rowC4.did ∈ followsC4 ∧
    acctC4.did ∉ stateC4.accountsIFollow ∧
    follow_or_unfollow true acctC4 5 ModifyFollowers.unfollow stateC4 = (false, stateC4) :=
  ⟨by decide,
   (C4_removal_safety 10 1 [rowC4] [] followsC4 []).1 rowC4 (by decide),
   by decide,
   (C4_removal_safety 10 1 [rowC4] [] followsC4 []).2 true acctC4 5 stateC4 (by decide)⟩

/-- C5.  The unfollow list and the constructed follow list of one run are
disjoint on DIDs: every unfollow target's DID is in `accounts_i_follow`,
while every follow target's DID was excluded from that very set. -/
theorem C5_sets_disjoint (now retention : Int) (ledger manual : List LedgerRow)
    (follows myFollowers : Finset String) (dnr : List String)
    (maxFollows : Nat) (added : List LedgerRow) (prospects : List Account)
    (a : LedgerRow) (ha : a ∈ unfollowList now retention ledger manual follows dnr)
    (b : Account)
    (hb : b ∈ construct_follow_list maxFollows follows myFollowers added prospects) :
    a.did ≠ b.did := by
  have h1 : a.did ∈ follows :=
    mem_unfollowList_did now retention ledger manual follows dnr a ha
  have h2 := mem_construct_follow_list_did maxFollows follows myFollowers added prospects b hb
  intro heq
  apply h2
  rw [← heq]
  exact Finset.mem_union_left _ (Finset.mem_union_left _ h1)

/-- An aged followed entry for the C5 witness. -/
def rowC5 : LedgerRow := ⟨"ursula", "", "didC5u", true, some 3⟩

/-- An unrelated prospect for the C5 witness. -/
def acctC5 : Account := ⟨"vic", "", "didC5v", false⟩

def followsC5 : Finset String := {"didC5u"}

/-- Witness for C5 at a concrete run with one unfollow target and one
follow target. -/
theorem C5_sets_disjoint_witness :
    rowC5 ∈ unfollowList 10 1 [rowC5] [] followsC5 [] ∧
    acctC5 ∈ construct_follow_list 10 followsC5 ∅ [] [acctC5] ∧
    rowC5.did ≠ acctC5.did :=
  ⟨by decide, by decide,
   C5_sets_disjoint 10 1 [rowC5] [] followsC5 ∅ [] 10 [] [acctC5]
     rowC5 (by decide) acctC5 (by decide)⟩

/-- C6.  Any account whose DID is already followed, already a follower, or
already recorded in the `added_by_API` ledger never appears in the
constructed follow list, whatever prospect stream (hence whatever seed
order) produced the prospects. -/
theorem C6_candidate_exclusion (maxFollows : Nat)
    (accountsIFollow myFollowers : Finset String) (added : List LedgerRow)
    (prospects : List Account) (a : Account)
    (h : a.did ∈ accountsIFollow ∨ a.did ∈ myFollowers ∨
      a.did ∈ added.map (fun r => r.did)) :
    a ∉ construct_follow_list maxFollows accountsIFollow myFollowers added prospects := by
  intro hmem
  have h2 := mem_construct_follow_list_did maxFollows accountsIFollow myFollowers
    added prospects a hmem
  apply h2
  rcases h with h | h | h
  · exact Finset.mem_union_left _ (Finset.mem_union_left _ h)
  · exact Finset.mem_union_left _ (Finset.mem_union_right _ h)
  · exact Finset.mem_union_right _ (List.mem_toFinset.mpr h)

/-- An already-followed prospect for the C6 witness. -/
def acctC6 : Account := ⟨"wally", "", "didC6", false⟩

def followsC6 : Finset String := {"didC6"}

/-- Witness for C6: an already-followed account is kept out of the follow
list even when it is the only prospect. -/
theorem C6_candidate_exclusion_witness :
    acctC6.did ∈ followsC6 ∧
    acctC6 ∉ construct_follow_list 5 followsC6 ∅ [] [acctC6] :=
  ⟨by decide,
   C6_candidate_exclusion 5 followsC6 ∅ [] [acctC6] acctC6 (Or.inl (by decide))⟩

/-- One rate-limited call starts no earlier than `interval` after the
stored `last_called` instant: either the gate sleeps up to exactly
`last + interval`, or the attempt was already late enough. -/
theorem rate_limited_call_start_ge (interval last now : ℚ) :
    interval ≤ (rate_limited_call interval last now).1 - last := by
  simp only [rate_limited_call]
  split
  · linarith
  · linarith [le_of_not_lt (by assumption : ¬ now - last < interval)]

/-- C7.  For two consecutive invocations of the rate-limited mutation call,
the second call's start is at least `interval` after the first call's start
(so with `interval = 3` the wall-clock gap between call starts is at least
3 seconds): the second invocation sees `last_called` equal to the first
start and blocks for the remainder whenever it is attempted sooner. -/
theorem C7_rate_limiter_gap (interval lastCalled t1 t2 : ℚ) :
    interval ≤
      (rate_limited_call interval (rate_limited_call interval lastCalled t1).2 t2).1 -
        (rate_limited_call interval lastCalled t1).1 := by
  have h := rate_limited_call_start_ge interval
    (rate_limited_call interval lastCalled t1).2 t2
  have h2 : (rate_limited_call interval lastCalled t1).2 =
      (rate_limited_call interval lastCalled t1).1 := by
    simp [rate_limited_call]
  rw [h2] at h
  exact h

/-- C8.  Reading a ledger whose file does not exist is not an error: both
CSV readers return the empty result, and control returns normally to the
caller. -/
theorem C8_missing_file_is_empty_ledger :
    read_accounts_from_csv none = [] ∧ read_handles_from_csv none = [] :=
  ⟨rfl, rfl⟩

/-- C9.  When every row of the ledger is slated for removal, the
`if remaining_data:` guard skips the rewrite entirely, so the ledger keeps
all its rows — including the ones that were requested for removal. -/
theorem C9_empty_remaining_skips_rewrite (rows : List LedgerRow)
    (toRemove : List String)
    (h : rows.filter (fun r => !(decide (r.handle ∈ toRemove))) = []) :
    remove_accounts_from_csv rows toRemove = rows := by
  unfold remove_accounts_from_csv
  simp [h]

/-- A ledger row whose removal is requested in the C9 witness. -/
def rowC9 : LedgerRow := ⟨"gil", "", "didC9", true, none⟩

/-- Witness for C9: removing the only row leaves the ledger untouched. -/
theorem C9_empty_remaining_skips_rewrite_witness :
    ([rowC9].filter (fun r => !(decide (r.handle ∈ ["gil"]))) = []) ∧
    remove_accounts_from_csv [rowC9] ["gil"] = [rowC9] :=
  ⟨by decide, C9_empty_remaining_skips_rewrite [rowC9] ["gil"] (by decide)⟩

/-- If some handle's fetch fails (non-timeout), the whole `try` body of
`get_relationships_of_handle_list` aborts with that failure. -/
theorem gatherProspects_error (fetcher : String → Except Unit (List Account))
    (myFollowers : Finset String) :
    ∀ (handleList : List String) (h : String), h ∈ handleList →
      fetcher h = Except.error () →
      ∃ e, gatherProspects fetcher myFollowers handleList = Except.error e := by
  intro handleList
  induction handleList with
  | nil => intro h hm; simp at hm
  | cons x rest ih =>
    intro h hm hf
    rcases List.mem_cons.mp hm with rfl | hm2
    · exact ⟨(), by simp [gatherProspects, hf]⟩
    · cases hx : fetcher x with
      | error e => exact ⟨e, by simp [gatherProspects, hx]⟩
      | ok accts =>
        obtain ⟨e, he⟩ := ih h hm2 hf
        exact ⟨e, by simp [gatherProspects, hx, he]⟩

/-- C10.  When the fetch for any handle in the list fails with a
non-timeout error, `get_relationships_of_handle_list` neither propagates
that failure nor returns a partial list: its broad `except` swallows the
failure, `return_dict` is never assigned, and the `return` statement raises
`UnboundLocalError`. -/
theorem C10_unbound_local_on_failure
    (fetcher : String → Except Unit (List Account)) (myFollowers : Finset String)
    (handleList : List String) (h : String) (hmem : h ∈ handleList)
    (hfail : fetcher h = Except.error ()) :
    get_relationships_of_handle_list fetcher myFollowers handleList =
      PyOutcome.unboundLocalError := by
  obtain ⟨e, he⟩ :=
    gatherProspects_error fetcher myFollowers handleList h hmem hfail
  unfold get_relationships_of_handle_list
  rw [he]

/-- A fetcher that fails (non-timeout) on every handle, for the C10
witness. -/
def fetcherC10 : String → Except Unit (List Account) := fun _ => Except.error ()

/-- The single seed handle of the C10 witness. -/
def seedC10 : String := "alice.bsky.social"

/-- Witness for C10: with one seed whose fetch fails, the call ends in
`UnboundLocalError`. -/
theorem C10_unbound_local_on_failure_witness :
    seedC10 ∈ [seedC10] ∧ fetcherC10 seedC10 = Except.error () ∧
    get_relationships_of_handle_list fetcherC10 ∅ [seedC10] =
      PyOutcome.unboundLocalError :=
  ⟨by simp, rfl,
   C10_unbound_local_on_failure fetcherC10 ∅ [seedC10] seedC10 (by simp) rfl⟩

end Bluesky
